/-
Verification of the swarm node runtime core: Storage Manager (FileManager),
Model Runtime (ModelRuntime) and Peer Directory / Beacon Protocol
(SwarmIntelligenceNode), as a shallow embedding in Lean 4.

The embedding follows the C++ sources:
  - FileManager.hpp          : FileOp / FileRequest / FileResponse, the
                               fileTask worker loop, handleRead, handleWrite;
  - ModelRuntime.hpp         : ModelState / ModelOp / ModelRequest /
                               ModelResponse, the modelTask worker loop,
                               handleModelLoad, handleInference;
  - esp32-swarm-firmware.c   : SwarmPeer, BeaconPacket, processBeacon and the
                               ESP-NOW receive callback of initESPNOW.

External collaborators (the SPIFFS filesystem behind fopen/fread/fwrite, the
TFLite-Micro engine behind loadModelFromStorage / AllocateTensors / Invoke)
are modelled as explicit parameters: the filesystem as a map from filename to
byte contents, the engine as an `Env` record of deterministic oracles.
Byte buffers are `List Nat`; the worker tasks become folds over the list of
requests dequeued in FIFO order, threading the mutable `response` local of
the C++ loop explicitly (it is reused across iterations, which matters for
operation kinds the dispatch switch does not handle).
-/
import Mathlib

namespace Swarm

/-! ## Storage Manager (FileManager.hpp) -/

/-- File operation request types (enum class FileOp). -/
inductive FileOp where
  | READ
  | WRITE
  | DELETE
  | LIST
  | STATUS
deriving DecidableEq, Repr

/-- Request structure for file operations (struct FileRequest); the
`data`/`length` pointer-plus-size pair is modelled as one byte list. -/
structure FileRequest where
  operation : FileOp
  filename : String
  data : List Nat
  requestId : Nat
deriving DecidableEq, Repr

/-- Response structure for file operations (struct FileResponse). -/
structure FileResponse where
  success : Bool
  message : String
  data : List Nat
  length : Nat
  requestId : Nat
deriving DecidableEq, Repr

/-- The mounted filesystem behind fopen/fread/fwrite: filename to contents.
The storage driver itself is an external collaborator; reads and writes that
reach an open file transfer all bytes. A missing file makes fopen(..., "rb")
return null. -/
abbrev Fs : Type := String → Option (List Nat)

/-- fopen(..., "wb"): create or truncate `f`, then fwrite all of `b`. -/
def fsWrite (fs : Fs) (f : String) (b : List Nat) : Fs :=
  fun g => if g = f then some b else fs g

/-- FileManager::handleRead: open the file ("Failed to open file" when fopen
returns null), read the whole contents, answer with the buffer and the
request's correlation id. -/
def handleRead (request : FileRequest) (fs : Fs) : FileResponse :=
  match fs request.filename with
  | none =>
      { success := false, message := "Failed to open file", data := [],
        length := 0, requestId := request.requestId }
  | some buffer =>
      { success := true, message := "Success", data := buffer,
        length := buffer.length, requestId := request.requestId }

/-- FileManager::handleWrite: fopen(..., "wb") creates or truncates the file,
fwrite persists the request's bytes, the response reports the written count
and the request's correlation id. -/
def handleWrite (request : FileRequest) (fs : Fs) : Fs × FileResponse :=
  (fsWrite fs request.filename request.data,
   { success := true, message := "Success", data := [],
     length := request.data.length, requestId := request.requestId })

/-- The operation kinds for which FileManager::fileTask's switch has a case.
DELETE, LIST and STATUS fall through ("Add other operations as needed"). -/
def fileHandled (op : FileOp) : Bool :=
  match op with
  | .READ => true
  | .WRITE => true
  | _ => false

/-- One iteration of the FileManager::fileTask loop body after dequeuing
`request`: dispatch by operation kind. `r` is the current value of the
`response` local, which the switch leaves untouched for unhandled kinds —
the loop then enqueues it anyway (stale response). Returns the filesystem
after the operation and the response that is enqueued. -/
def fileStep (fs : Fs) (r : FileResponse) (request : FileRequest) :
    Fs × FileResponse :=
  match request.operation with
  | .READ => (fs, handleRead request fs)
  | .WRITE => handleWrite request fs
  | _ => (fs, r)

/-- FileManager::fileTask: serve the dequeued requests in FIFO order,
threading the filesystem and the reused `response` local (initial value
`r₀`, the uninitialized local of the C++ task); returns the final filesystem
and the responses enqueued, in order. -/
def fileTaskRun (fs : Fs) (r₀ : FileResponse) :
    List FileRequest → Fs × List FileResponse
  | [] => (fs, [])
  | request :: rest =>
      let s := fileStep fs r₀ request
      let t := fileTaskRun s.1 s.2 rest
      (t.1, s.2 :: t.2)

/-! ## Model Runtime (ModelRuntime.hpp) -/

/-- Model states (enum class ModelState). -/
inductive ModelState where
  | UNLOADED
  | LOADING
  | READY
  | RUNNING
  | ERROR
deriving DecidableEq, Repr

/-- Model request types (enum class ModelOp). -/
inductive ModelOp where
  | LOAD
  | UNLOAD
  | RUN
  | STATUS
deriving DecidableEq, Repr

/-- struct ModelRequest; the `inputData`/`inputLength` pointer-plus-size pair
is modelled as one byte list (inputLength = inputData.length). -/
structure ModelRequest where
  operation : ModelOp
  modelId : String
  inputData : List Nat
  requestId : Nat
deriving DecidableEq, Repr

/-- struct ModelResponse. -/
structure ModelResponse where
  success : Bool
  message : String
  outputData : List Nat
  outputLength : Nat
  requestId : Nat
  state : ModelState
deriving DecidableEq, Repr

/-- Deterministic oracles for the external collaborators of the Model
Runtime: `findModel` is whether loadModelFromStorage returns a non-null
model for an id; `allocTensors` is whether MicroInterpreter::AllocateTensors
returns kTfLiteOk for that model; `invokeOk` is whether Invoke returns
kTfLiteOk given the model id and the bytes sitting in the input tensor;
`inputBytes` is the byte size of the engine's input tensor (input(0)->bytes);
`outputData` is the raw contents of the output tensor after a successful
Invoke (output(0)->bytes is its length). -/
structure Env where
  findModel : String → Bool
  allocTensors : String → Bool
  invokeOk : String → List Nat → Bool
  inputBytes : String → Nat
  outputData : String → List Nat

/-- struct ModelContext: lifecycle state, the fixed scratch arena size chosen
by handleModelLoad, the engine's input tensor capacity (input(0)->bytes) and
the input tensor's current raw bytes. Interpreter, resolver and model
pointers live inside the engine collaborator and carry no further state the
handlers observe. -/
structure ModelContext where
  state : ModelState
  tensorArenaSize : Nat
  inputTensorBytes : Nat
  inputTensor : List Nat
deriving DecidableEq, Repr

/-- std::map<std::string, ModelContext> loadedModels, as an association list
(at most one live entry per key: lookups stop at the first match, stores
replace the first match or append). -/
abbrev ModelTable : Type := List (String × ModelContext)

/-- loadedModels.find(id): first entry with the given key. -/
def tlookup : ModelTable → String → Option ModelContext
  | [], _ => none
  | e :: rest, id => if e.1 = id then some e.2 else tlookup rest id

/-- loadedModels[id] = ctx: replace the first entry with key `id`, or append
a fresh one when the key is absent. -/
def tset : ModelTable → String → ModelContext → ModelTable
  | [], id, ctx => [(id, ctx)]
  | e :: rest, id, ctx =>
      if e.1 = id then (id, ctx) :: rest else e :: tset rest id ctx

/-- loadedModels.erase(id): remove every entry with the given key. -/
def tremove : ModelTable → String → ModelTable
  | [], _ => []
  | e :: rest, id =>
      if e.1 = id then tremove rest id else e :: tremove rest id

/-- Number of entries stored under a key (for a std::map, at most one). -/
def tcountKey (t : ModelTable) (id : String) : Nat :=
  (t.filter (fun e => e.1 = id)).length

/-- memcpy(dst, src, src.length) into a buffer holding `dst`: the first
src.length bytes are overwritten; when src is longer than dst the copy runs
past the end of the buffer, which the model makes visible by returning a
list longer than dst. -/
def memcpyInto (dst src : List Nat) : List Nat :=
  src ++ dst.drop src.length

/-- ModelRuntime::handleModelLoad: answer "Model already loaded" when the id
has a context; otherwise resolve the model via storage ("Failed to load
model file" when null), allocate a 32 KiB scratch arena, create the
interpreter and bind tensors ("Failed to allocate tensors" on engine
failure), then store the READY context. The thrown exceptions are caught
into a failed response with state ERROR; the locally built context is
discarded, so the table is untouched on failure. -/
def handleModelLoad (env : Env) (t : ModelTable) (request : ModelRequest) :
    ModelTable × ModelResponse :=
  match tlookup t request.modelId with
  | some _ =>
      (t, { success := true, message := "Model already loaded",
            outputData := [], outputLength := 0,
            requestId := request.requestId, state := .READY })
  | none =>
      if env.findModel request.modelId = false then
        (t, { success := false, message := "Failed to load model file",
              outputData := [], outputLength := 0,
              requestId := request.requestId, state := .ERROR })
      else if env.allocTensors request.modelId = false then
        (t, { success := false, message := "Failed to allocate tensors",
              outputData := [], outputLength := 0,
              requestId := request.requestId, state := .ERROR })
      else
        let ctx : ModelContext :=
          { state := .READY, tensorArenaSize := 32 * 1024,
            inputTensorBytes := env.inputBytes request.modelId,
            inputTensor := List.replicate (env.inputBytes request.modelId) 0 }
        (tset t request.modelId ctx,
         { success := true, message := "Model loaded successfully",
           outputData := [], outputLength := 0,
           requestId := request.requestId, state := .READY })

/-- ModelRuntime::handleInference: "Model not loaded" when the table has no
entry for the id (presence is the only check — the stored state is never
inspected); otherwise the stored context is set RUNNING, the request's bytes
are memcpy'd into the input tensor with the request's length and no size
validation, Invoke runs ("Inference failed" is thrown on non-kTfLiteOk and
caught into a failed ERROR response, leaving the stored context as already
mutated: state RUNNING), and on success the output tensor is copied into a
fresh buffer and the stored context returns to READY. -/
def handleInference (env : Env) (t : ModelTable) (request : ModelRequest) :
    ModelTable × ModelResponse :=
  match tlookup t request.modelId with
  | none =>
      (t, { success := false, message := "Model not loaded",
            outputData := [], outputLength := 0,
            requestId := request.requestId, state := .UNLOADED })
  | some ctx =>
      let ctx₁ : ModelContext :=
        { ctx with state := .RUNNING,
                   inputTensor := memcpyInto ctx.inputTensor request.inputData }
      let t₁ := tset t request.modelId ctx₁
      if env.invokeOk request.modelId request.inputData = false then
        (t₁, { success := false, message := "Inference failed",
               outputData := [], outputLength := 0,
               requestId := request.requestId, state := .ERROR })
      else
        let out := env.outputData request.modelId
        (tset t₁ request.modelId { ctx₁ with state := .READY },
         { success := true, message := "Inference successful",
           outputData := out, outputLength := out.length,
           requestId := request.requestId, state := .READY })

/-- Modelled from the spec: `handleModelUnload` is invoked from the switch in
ModelRuntime::modelTask but its definition is not present under src/. Per
the spec's UNLOAD(id) contract it releases the context's scratch arena and
engine, removes the table entry and transitions to Unloaded; per the spec's
Response data model the response carries the request's correlation id. -/
def handleModelUnload (t : ModelTable) (request : ModelRequest) :
    ModelTable × ModelResponse :=
  (tremove t request.modelId,
   { success := true, message := "Model unloaded", outputData := [],
     outputLength := 0, requestId := request.requestId, state := .UNLOADED })

/-- The operation kinds for which ModelRuntime::modelTask's switch has a
case; STATUS has none and falls through. -/
def modelHandled (op : ModelOp) : Bool :=
  match op with
  | .LOAD => true
  | .RUN => true
  | .UNLOAD => true
  | .STATUS => false

/-- One iteration of the ModelRuntime::modelTask loop body after dequeuing
`request`: dispatch by operation kind under the model mutex. `r` is the
current value of the `response` local; for STATUS the switch leaves it
untouched and the loop enqueues the stale value anyway. -/
def modelStep (env : Env) (t : ModelTable) (r : ModelResponse)
    (request : ModelRequest) : ModelTable × ModelResponse :=
  match request.operation with
  | .LOAD => handleModelLoad env t request
  | .RUN => handleInference env t request
  | .UNLOAD => handleModelUnload t request
  | .STATUS => (t, r)

/-- ModelRuntime::modelTask: serve the dequeued requests in FIFO order,
threading the model table and the reused `response` local (initial value
`r₀`, the uninitialized local of the C++ task); returns the final table and
the responses enqueued, in order. -/
def modelTaskRun (env : Env) (t : ModelTable) (r₀ : ModelResponse) :
    List ModelRequest → ModelTable × List ModelResponse
  | [] => (t, [])
  | request :: rest =>
      let s := modelStep env t r₀ request
      let u := modelTaskRun env s.1 s.2 rest
      (u.1, s.2 :: u.2)

/-! ## Peer Directory & Beacon Protocol (esp32-swarm-firmware.c) -/

/-- #define NODE_ID_LENGTH 6 -/
def NODE_ID_LENGTH : Nat := 6

/-- #define MAX_PEERS 20 -/
def MAX_PEERS : Nat := 20

/-- #define BEACON_INTERVAL_MS 5000 -/
def BEACON_INTERVAL_MS : Nat := 5000

/-- #define AI_MODEL_OUTPUT_SIZE 32 -/
def AI_MODEL_OUTPUT_SIZE : Nat := 32

/-- struct SwarmPeer: identity (6 MAC bytes), received-signal-strength
estimate, last-seen device time, liveness flag and the capability vector.
The 32 floats of the capability vector are carried as their 128 raw bytes —
processBeacon and the beacon path only ever memcpy them, so byte-level
modelling is exact and avoids floating-point semantics. -/
structure SwarmPeer where
  mac_address : List Nat
  rssi : Int
  last_seen : Nat
  is_active : Bool
  capabilities : List Nat
deriving DecidableEq, Repr

/-- struct BeaconPacket: sender identity (6 bytes), capability vector (128
raw bytes) and a 32-bit device timestamp. -/
structure BeaconPacket where
  sender_id : List Nat
  capabilities : List Nat
  timestamp : Nat
deriving DecidableEq, Repr

/-- First scan of SwarmIntelligenceNode::processBeacon: look for a slot whose
mac_address memcmp-matches the beacon's sender id; on the first match update
last_seen, capabilities and is_active in place (rssi is not written) and stop
(break). Returns none when no slot matches. -/
def updateMatch : List SwarmPeer → BeaconPacket → Option (List SwarmPeer)
  | [], _ => none
  | p :: rest, beacon =>
      if p.mac_address = beacon.sender_id then
        some ({ p with last_seen := beacon.timestamp,
                       capabilities := beacon.capabilities,
                       is_active := true } :: rest)
      else
        match updateMatch rest beacon with
        | some rest' => some (p :: rest')
        | none => none

/-- Second scan of SwarmIntelligenceNode::processBeacon: populate the first
inactive slot with the beacon's identity, timestamp and capabilities and mark
it active (rssi is not written), stopping at the first such slot (break); when
every slot is active the beacon is dropped and the array is unchanged. -/
def insertInactive : List SwarmPeer → BeaconPacket → List SwarmPeer
  | [], _ => []
  | p :: rest, beacon =>
      if p.is_active = false then
        { p with mac_address := beacon.sender_id,
                 last_seen := beacon.timestamp,
                 capabilities := beacon.capabilities,
                 is_active := true } :: rest
      else
        p :: insertInactive rest beacon

/-- SwarmIntelligenceNode::processBeacon over the peers array: update the
matching slot if one exists, otherwise claim the first inactive slot,
otherwise drop the beacon. -/
def processBeacon (peers : List SwarmPeer) (beacon : BeaconPacket) :
    List SwarmPeer :=
  match updateMatch peers beacon with
  | some peers' => peers'
  | none => insertInactive peers beacon

/-- Number of slots currently marked active. -/
def activeCount (peers : List SwarmPeer) : Nat :=
  (peers.filter (fun p => p.is_active)).length

/-- sizeof(BeaconPacket) on the target: 6 identity bytes, 2 padding bytes
(float alignment), 128 capability bytes, 4 timestamp bytes. -/
def BEACON_FRAME_SIZE : Nat := 140

/-- memcpy(&beacon, data, len) in the receive callback: reinterpret the raw
frame as a BeaconPacket (identity at offset 0, capabilities at offset 8
after padding, little-endian 32-bit timestamp at offset 136). -/
def decodeBeacon (data : List Nat) : BeaconPacket :=
  { sender_id := data.take NODE_ID_LENGTH,
    capabilities := (data.drop 8).take 128,
    timestamp := data.getD 136 0 + 256 * data.getD 137 0 +
      65536 * data.getD 138 0 + 16777216 * data.getD 139 0 }

/-- The ESP-NOW receive callback registered by
SwarmIntelligenceNode::initESPNOW: a frame of exactly sizeof(BeaconPacket)
bytes is copied into a BeaconPacket and passed to processBeacon; a frame of
any other length falls through the guard and leaves the peers array alone. -/
def onReceive (peers : List SwarmPeer) (data : List Nat) : List SwarmPeer :=
  if data.length = BEACON_FRAME_SIZE then
    processBeacon peers (decodeBeacon data)
  else
    peers

/-! ## Concrete fixtures for evaluating the embedded code -/

/-- A concrete FileResponse value standing for the uninitialized `response`
local of FileManager::fileTask in concrete traces. -/
def fresp₀ : FileResponse :=
  { success := false, message := "", data := [], length := 0, requestId := 0 }

/-- A concrete ModelResponse value standing for the uninitialized `response`
local of ModelRuntime::modelTask in concrete traces. -/
def mresp₀ : ModelResponse :=
  { success := false, message := "", outputData := [], outputLength := 0,
    requestId := 0, state := .UNLOADED }

/-- A freshly formatted filesystem: no file exists. -/
def emptyFs : Fs := fun _ => none

/-- A concrete engine/storage environment: exactly the model "m" resolves
from storage, tensor allocation succeeds, Invoke fails exactly when the
input bytes are [1], the input tensor holds 4 bytes, the output tensor holds
[7, 7]. -/
def envA : Env :=
  { findModel := fun id => id == "m",
    allocTensors := fun _ => true,
    invokeOk := fun _ input => input != [1],
    inputBytes := fun _ => 4,
    outputData := fun _ => [7, 7] }

/-- LOAD request for model "m". -/
def loadM (rid : Nat) : ModelRequest :=
  { operation := .LOAD, modelId := "m", inputData := [], requestId := rid }

/-- RUN request for model "m" with the given input bytes. -/
def runM (input : List Nat) (rid : Nat) : ModelRequest :=
  { operation := .RUN, modelId := "m", inputData := input, requestId := rid }

/-- RUN request for the never-loaded model "z". -/
def runZ (rid : Nat) : ModelRequest :=
  { operation := .RUN, modelId := "z", inputData := [], requestId := rid }

/-- LOAD request for the unresolvable model "q". -/
def loadQ (rid : Nat) : ModelRequest :=
  { operation := .LOAD, modelId := "q", inputData := [], requestId := rid }

/-- READ request for file "x". -/
def readX (rid : Nat) : FileRequest :=
  { operation := .READ, filename := "x", data := [], requestId := rid }

/-- DELETE request for file "y" (an operation kind the dispatch switch does
not handle). -/
def delY (rid : Nat) : FileRequest :=
  { operation := .DELETE, filename := "y", data := [], requestId := rid }

/-- WRITE request storing [1, 2, 3] under file "f". -/
def writeF : FileRequest :=
  { operation := .WRITE, filename := "f", data := [1, 2, 3], requestId := 4 }

/-- READ request for file "f". -/
def readF : FileRequest :=
  { operation := .READ, filename := "f", data := [], requestId := 5 }

/-- A READY context for model "m" as handleModelLoad stores it under envA. -/
def ctxM : ModelContext :=
  { state := .READY, tensorArenaSize := 32 * 1024, inputTensorBytes := 4,
    inputTensor := [0, 0, 0, 0] }

/-- An active peer slot with identity 01:02:03:04:05:06 and rssi 7. -/
def peerA : SwarmPeer :=
  { mac_address := [1, 2, 3, 4, 5, 6], rssi := 7, last_seen := 0,
    is_active := true, capabilities := List.replicate 128 0 }

/-- An active peer slot with identity 09:09:09:09:09:09. -/
def peerB : SwarmPeer :=
  { mac_address := [9, 9, 9, 9, 9, 9], rssi := -4, last_seen := 1,
    is_active := true, capabilities := List.replicate 128 1 }

/-- A beacon from peerA's identity with fresh capabilities and timestamp. -/
def beaconA : BeaconPacket :=
  { sender_id := [1, 2, 3, 4, 5, 6], capabilities := List.replicate 128 9,
    timestamp := 55 }

/-- A beacon from a brand-new identity 08:08:08:08:08:08. -/
def beaconB : BeaconPacket :=
  { sender_id := [8, 8, 8, 8, 8, 8], capabilities := List.replicate 128 2,
    timestamp := 77 }

/-! ## Helper lemmas: model table -/

theorem tlookup_tset_self (t : ModelTable) (id : String) (c : ModelContext) :
    tlookup (tset t id c) id = some c := by
  induction t with
  | nil => simp [tset, tlookup]
  | cons e rest ih =>
      by_cases h : e.1 = id
      · simp [tset, h, tlookup]
      · simp [tset, h, tlookup, ih]

theorem tlookup_tset_ne (t : ModelTable) (id id' : String) (c : ModelContext)
    (h : id' ≠ id) : tlookup (tset t id c) id' = tlookup t id' := by
  induction t with
  | nil => simp [tset, tlookup, Ne.symm h]
  | cons e rest ih =>
      by_cases he : e.1 = id
      · simp [tset, he, tlookup, Ne.symm h]
      · by_cases he' : e.1 = id'
        · simp [tset, he, tlookup, he', h]
        · simp [tset, he, tlookup, he', ih]

theorem tlookup_tremove_of_none (t : ModelTable) (id id' : String)
    (h : tlookup t id = none) : tlookup (tremove t id') id = none := by
  induction t with
  | nil => simp [tremove, tlookup]
  | cons e rest ih =>
      by_cases he : e.1 = id
      · simp [tlookup, he] at h
      · simp only [tlookup, if_neg he] at h
        by_cases he' : e.1 = id'
        · simpa [tremove, he'] using ih h
        · simpa [tremove, he', tlookup, he] using ih h

theorem tcountKey_cons (e : String × ModelContext) (rest : ModelTable)
    (id : String) :
    tcountKey (e :: rest) id =
      (if e.1 = id then 1 else 0) + tcountKey rest id := by
  by_cases he : e.1 = id
  · simp [tcountKey, List.filter_cons, he, Nat.add_comm]
  · simp [tcountKey, List.filter_cons, he]

theorem tlookup_none_of_tcount_zero (t : ModelTable) (id : String)
    (h : tcountKey t id = 0) : tlookup t id = none := by
  induction t with
  | nil => simp [tlookup]
  | cons e rest ih =>
      rw [tcountKey_cons] at h
      by_cases he : e.1 = id
      · rw [if_pos he] at h; omega
      · rw [if_neg he] at h
        simpa [tlookup, he] using ih (by omega)

theorem tset_of_lookup_none (t : ModelTable) (id : String) (c : ModelContext)
    (h : tlookup t id = none) : tset t id c = t ++ [(id, c)] := by
  induction t with
  | nil => simp [tset]
  | cons e rest ih =>
      by_cases he : e.1 = id
      · simp [tlookup, he] at h
      · simp only [tlookup, if_neg he] at h
        simp [tset, he, ih h]

theorem tcountKey_tset_of_none (t : ModelTable) (id : String)
    (c : ModelContext) (h : tlookup t id = none) :
    tcountKey (tset t id c) id = tcountKey t id + 1 := by
  rw [tset_of_lookup_none t id c h]
  simp [tcountKey, List.filter_append]

/-! ## Helper lemmas: worker loops -/

theorem fileTaskRun_length (fs : Fs) (r₀ : FileResponse)
    (reqs : List FileRequest) :
    (fileTaskRun fs r₀ reqs).2.length = reqs.length := by
  induction reqs generalizing fs r₀ with
  | nil => simp [fileTaskRun]
  | cons q rest ih => simp [fileTaskRun, ih]

theorem fileStep_requestId (fs : Fs) (r : FileResponse) (req : FileRequest)
    (h : fileHandled req.operation = true) :
    (fileStep fs r req).2.requestId = req.requestId := by
  cases hop : req.operation
  case READ =>
    cases hf : fs req.filename <;> simp [fileStep, hop, handleRead, hf]
  case WRITE => simp [fileStep, hop, handleWrite]
  all_goals simp [fileHandled, hop] at h

theorem fileTaskRun_requestId (fs : Fs) (r₀ : FileResponse)
    (reqs : List FileRequest) :
    ∀ (i : Nat) (req : FileRequest) (resp : FileResponse),
      reqs[i]? = some req →
      (fileTaskRun fs r₀ reqs).2[i]? = some resp →
      fileHandled req.operation = true →
      resp.requestId = req.requestId := by
  induction reqs generalizing fs r₀ with
  | nil => intro i req resp h; simp at h
  | cons q rest ih =>
      intro i req resp hq hr hh
      cases i with
      | zero =>
          simp at hq
          simp [fileTaskRun] at hr
          subst hq; subst hr
          exact fileStep_requestId fs r₀ q hh
      | succ j =>
          simp at hq
          simp [fileTaskRun] at hr
          exact ih (fileStep fs r₀ q).1 (fileStep fs r₀ q).2 j req resp hq hr hh

theorem modelTaskRun_length (env : Env) (t : ModelTable) (r₀ : ModelResponse)
    (reqs : List ModelRequest) :
    (modelTaskRun env t r₀ reqs).2.length = reqs.length := by
  induction reqs generalizing t r₀ with
  | nil => simp [modelTaskRun]
  | cons q rest ih => simp [modelTaskRun, ih]

theorem handleModelLoad_requestId (env : Env) (t : ModelTable)
    (req : ModelRequest) :
    (handleModelLoad env t req).2.requestId = req.requestId := by
  cases hl : tlookup t req.modelId
  · simp only [handleModelLoad, hl]
    split
    · rfl
    · split <;> rfl
  · simp [handleModelLoad, hl]

theorem handleInference_requestId (env : Env) (t : ModelTable)
    (req : ModelRequest) :
    (handleInference env t req).2.requestId = req.requestId := by
  cases hl : tlookup t req.modelId
  · simp [handleInference, hl]
  · simp only [handleInference, hl]
    split <;> rfl

theorem modelStep_requestId (env : Env) (t : ModelTable) (r : ModelResponse)
    (req : ModelRequest) (h : modelHandled req.operation = true) :
    (modelStep env t r req).2.requestId = req.requestId := by
  cases hop : req.operation
  case LOAD => simpa [modelStep, hop] using handleModelLoad_requestId env t req
  case RUN => simpa [modelStep, hop] using handleInference_requestId env t req
  case UNLOAD => simp [modelStep, hop, handleModelUnload]
  case STATUS => simp [modelHandled, hop] at h

theorem modelTaskRun_requestId (env : Env) (t : ModelTable)
    (r₀ : ModelResponse) (reqs : List ModelRequest) :
    ∀ (i : Nat) (req : ModelRequest) (resp : ModelResponse),
      reqs[i]? = some req →
      (modelTaskRun env t r₀ reqs).2[i]? = some resp →
      modelHandled req.operation = true →
      resp.requestId = req.requestId := by
  induction reqs generalizing t r₀ with
  | nil => intro i req resp h; simp at h
  | cons q rest ih =>
      intro i req resp hq hr hh
      cases i with
      | zero =>
          simp at hq
          simp [modelTaskRun] at hr
          subst hq; subst hr
          exact modelStep_requestId env t r₀ q hh
      | succ j =>
          simp at hq
          simp [modelTaskRun] at hr
          exact ih (modelStep env t r₀ q).1 (modelStep env t r₀ q).2 j req resp
            hq hr hh

/-! ## Claim C1 -/

/-- C1: the claim says RUN validates the caller-provided input length against
the engine's input tensor size before copying and fails with "input size
mismatch" on disagreement. The code has no such check: with a 4-byte input
tensor, a RUN carrying 8 input bytes is not rejected — the handler memcpys
all 8 bytes into the 4-byte tensor (the stored context's input tensor ends
up holding 8 bytes, 4 past its capacity) and the request reports
"Inference successful". -/
theorem run_copies_input_without_size_validation :
    (modelTaskRun envA [] mresp₀
        [loadM 1, runM [9, 9, 9, 9, 9, 9, 9, 9] 2]).2.map
        (fun r => (r.success, r.message)) =
      [(true, "Model loaded successfully"), (true, "Inference successful")] ∧
    (tlookup (modelTaskRun envA [] mresp₀
        [loadM 1, runM [9, 9, 9, 9, 9, 9, 9, 9] 2]).1 "m").map
        (fun c => (c.inputTensorBytes, c.inputTensor.length)) = some (4, 8) := by
  decide

/-! ## Claim C2 -/

/-- C2 counterexample: the claim promises a Response whose correlation id
equals the Request's for every operation kind the queue accepts. The
FileManager worker's switch has no case for DELETE: after a READ with
correlation id 5 and a DELETE with correlation id 9, the worker enqueues two
responses whose correlation ids are [5, 5] — the DELETE's response is the
stale previous response, not one carrying id 9. -/
theorem file_worker_stale_correlation_counterexample :
    (fileTaskRun emptyFs fresp₀ [readX 5, delY 9]).2.map
        (fun r => r.requestId) = [5, 5] ∧
    ([readX 5, delY 9].map fun r => r.requestId) = [5, 9] := by
  decide

/-- C2 (amended): each worker produces exactly one Response per accepted
Request, in submission order (the i-th response answers the i-th request);
for every operation kind the dispatch switch handles (READ/WRITE on the
Storage Manager, LOAD/RUN/UNLOAD on the Model Runtime) that response's
correlation id equals the request's. A request of an unhandled kind
(DELETE/LIST/STATUS) still yields exactly one response in order, but it is a
stale copy of the previously sent response, so its correlation id can
differ. -/
theorem worker_queue_response_correlation :
    ∀ (fs : Fs) (r₀ : FileResponse) (freqs : List FileRequest) (env : Env)
      (t : ModelTable) (m₀ : ModelResponse) (mreqs : List ModelRequest),
      ((fileTaskRun fs r₀ freqs).2.length = freqs.length ∧
        ∀ (i : Nat) (req : FileRequest) (resp : FileResponse),
          freqs[i]? = some req →
          (fileTaskRun fs r₀ freqs).2[i]? = some resp →
          fileHandled req.operation = true →
          resp.requestId = req.requestId) ∧
      ((modelTaskRun env t m₀ mreqs).2.length = mreqs.length ∧
        ∀ (i : Nat) (req : ModelRequest) (resp : ModelResponse),
          mreqs[i]? = some req →
          (modelTaskRun env t m₀ mreqs).2[i]? = some resp →
          modelHandled req.operation = true →
          resp.requestId = req.requestId) :=
  fun fs r₀ freqs env t m₀ mreqs =>
    ⟨⟨fileTaskRun_length fs r₀ freqs, fileTaskRun_requestId fs r₀ freqs⟩,
     ⟨modelTaskRun_length env t m₀ mreqs, modelTaskRun_requestId env t m₀ mreqs⟩⟩

/-- C2 witness: one READ with correlation id 5 yields exactly one response,
whose correlation id is 5; one LOAD with correlation id 8 yields exactly one
response, whose correlation id is 8. -/
theorem worker_queue_response_correlation_witness :
    (fileTaskRun emptyFs fresp₀ [readX 5]).2.length = 1 ∧
    ({ success := false, message := "Failed to open file", data := [],
       length := 0, requestId := 5 } : FileResponse).requestId = 5 ∧
    (modelTaskRun envA [] mresp₀ [loadM 8]).2.length = 1 ∧
    ({ success := true, message := "Model loaded successfully",
       outputData := [], outputLength := 0, requestId := 8,
       state := .READY } : ModelResponse).requestId = 8 :=
  ⟨(worker_queue_response_correlation emptyFs fresp₀ [readX 5] envA []
      mresp₀ [loadM 8]).1.1,
   (worker_queue_response_correlation emptyFs fresp₀ [readX 5] envA []
      mresp₀ [loadM 8]).1.2 0 (readX 5)
      { success := false, message := "Failed to open file", data := [],
        length := 0, requestId := 5 } (by decide) (by decide) (by decide),
   (worker_queue_response_correlation emptyFs fresp₀ [readX 5] envA []
      mresp₀ [loadM 8]).2.1,
   (worker_queue_response_correlation emptyFs fresp₀ [readX 5] envA []
      mresp₀ [loadM 8]).2.2 0 (loadM 8)
      { success := true, message := "Model loaded successfully",
        outputData := [], outputLength := 0, requestId := 8,
        state := .READY } (by decide) (by decide) (by decide)⟩

/-! ## Claim C6 -/

/-- C6: storage round-trip. A WRITE(f, b) followed by a READ(f) on the same
worker: the WRITE creates or truncates f so that the filesystem maps f to
exactly b and reports success with all bytes written; the READ then succeeds
and returns exactly b. -/
theorem storage_round_trip (fs : Fs) (r₀ : FileResponse) (w rq : FileRequest)
    (hw : w.operation = .WRITE) (hr : rq.operation = .READ)
    (hf : rq.filename = w.filename) :
    (fileTaskRun fs r₀ [w, rq]).1 w.filename = some w.data ∧
    (fileTaskRun fs r₀ [w, rq]).2 =
      [{ success := true, message := "Success", data := [],
         length := w.data.length, requestId := w.requestId },
       { success := true, message := "Success", data := w.data,
         length := w.data.length, requestId := rq.requestId }] := by
  constructor
  · simp [fileTaskRun, fileStep, hw, hr, handleWrite, handleRead, fsWrite, hf]
  · simp [fileTaskRun, fileStep, hw, hr, handleWrite, handleRead, fsWrite, hf]

/-- C6 witness: writing [1, 2, 3] to "f" and reading "f" back on an empty
filesystem persists [1, 2, 3] and returns it exactly. -/
theorem storage_round_trip_witness :
    (fileTaskRun emptyFs fresp₀ [writeF, readF]).1 "f" = some [1, 2, 3] ∧
    (fileTaskRun emptyFs fresp₀ [writeF, readF]).2 =
      [{ success := true, message := "Success", data := [], length := 3,
         requestId := 4 },
       { success := true, message := "Success", data := [1, 2, 3],
         length := 3, requestId := 5 }] :=
  storage_round_trip emptyFs fresp₀ writeF readF (by decide) (by decide) rfl

/-! ## Claim C9 -/

/-- C9: frame size guard. A received frame whose length differs from
sizeof(BeaconPacket) leaves the Peer Directory exactly as it was, without
invoking the upsert; a frame of exactly that size is decoded and handed to
processBeacon. -/
theorem frame_size_guard (peers : List SwarmPeer) (data : List Nat) :
    (data.length ≠ BEACON_FRAME_SIZE → onReceive peers data = peers) ∧
    (data.length = BEACON_FRAME_SIZE →
      onReceive peers data = processBeacon peers (decodeBeacon data)) := by
  constructor <;> intro h <;> simp [onReceive, h]

/-- C9 witness: a 3-byte frame arriving at a directory holding peerA is
dropped and the directory is unchanged. -/
theorem frame_size_guard_witness :
    onReceive [peerA] [1, 2, 3] = [peerA] :=
  (frame_size_guard [peerA] [1, 2, 3]).1 (by decide)

/-! ## Claim C3 -/

/-- C3 counterexample: the claim says a failed engine invocation leaves the
stored context for the model id in a terminal Error state, where no later
RUN or LOAD succeeds until an explicit UNLOAD. On the trace LOAD(m),
RUN(m, [1]) (engine failure), LOAD(m): the second response is the failure
"Inference failed", but the stored context is left with state RUNNING, not
ERROR, and the third request — a LOAD with no intervening UNLOAD — succeeds
immediately with "Model already loaded". -/
theorem inference_failure_not_terminal_counterexample :
    (modelTaskRun envA [] mresp₀ [loadM 1, runM [1] 2, loadM 3]).2.map
        (fun r => (r.success, r.message)) =
      [(true, "Model loaded successfully"), (false, "Inference failed"),
       (true, "Model already loaded")] ∧
    (tlookup (modelTaskRun envA [] mresp₀ [loadM 1, runM [1] 2, loadM 3]).1
        "m").map (fun c => c.state) = some ModelState.RUNNING := by
  decide

/-- C3 (amended): when the engine invocation of a RUN on a stored context
returns non-success, the request fails with "Inference failed" and the
response reports the Error state — but only the response: the stored context
stays in the table with state Running (the handler never writes Error back),
and the failure is not terminal, since a subsequent LOAD on the same id
succeeds immediately with "Model already loaded" and leaves the table
unchanged. -/
theorem inference_failure_error_response_context_running
    (env : Env) (t : ModelTable) (req : ModelRequest) (ctx : ModelContext)
    (hl : tlookup t req.modelId = some ctx)
    (hinv : env.invokeOk req.modelId req.inputData = false) :
    (handleInference env t req).2 =
      { success := false, message := "Inference failed", outputData := [],
        outputLength := 0, requestId := req.requestId, state := .ERROR } ∧
    tlookup (handleInference env t req).1 req.modelId =
      some { ctx with state := .RUNNING,
                      inputTensor := memcpyInto ctx.inputTensor req.inputData } ∧
    (handleModelLoad env (handleInference env t req).1
        { operation := .LOAD, modelId := req.modelId, inputData := [],
          requestId := 0 }).2 =
      { success := true, message := "Model already loaded", outputData := [],
        outputLength := 0, requestId := 0, state := .READY } ∧
    (handleModelLoad env (handleInference env t req).1
        { operation := .LOAD, modelId := req.modelId, inputData := [],
          requestId := 0 }).1 = (handleInference env t req).1 := by
  have ht : (handleInference env t req).1 =
      tset t req.modelId
        { ctx with state := .RUNNING,
                   inputTensor := memcpyInto ctx.inputTensor req.inputData } := by
    simp [handleInference, hl, hinv]
  have hl2 : tlookup (handleInference env t req).1 req.modelId =
      some { ctx with state := .RUNNING,
                      inputTensor := memcpyInto ctx.inputTensor req.inputData } := by
    rw [ht]; exact tlookup_tset_self _ _ _
  refine ⟨by simp [handleInference, hl, hinv], hl2, ?_, ?_⟩
  · simp [handleModelLoad, hl2]
  · simp [handleModelLoad, hl2]

/-- C3 witness: under envA with model "m" loaded as ctxM, RUN(m, [1]) makes
the engine fail; the response is the "Inference failed" Error response with
correlation id 2, the stored context is left RUNNING with the input bytes
already copied, and a follow-up LOAD(m) succeeds with "Model already
loaded" without touching the table. -/
theorem inference_failure_error_response_context_running_witness :
    (handleInference envA [("m", ctxM)] (runM [1] 2)).2 =
      { success := false, message := "Inference failed", outputData := [],
        outputLength := 0, requestId := 2, state := .ERROR } ∧
    tlookup (handleInference envA [("m", ctxM)] (runM [1] 2)).1 "m" =
      some { ctxM with state := .RUNNING,
                       inputTensor := memcpyInto ctxM.inputTensor [1] } ∧
    (handleModelLoad envA (handleInference envA [("m", ctxM)] (runM [1] 2)).1
        { operation := .LOAD, modelId := "m", inputData := [],
          requestId := 0 }).2 =
      { success := true, message := "Model already loaded", outputData := [],
        outputLength := 0, requestId := 0, state := .READY } ∧
    (handleModelLoad envA (handleInference envA [("m", ctxM)] (runM [1] 2)).1
        { operation := .LOAD, modelId := "m", inputData := [],
          requestId := 0 }).1 =
      (handleInference envA [("m", ctxM)] (runM [1] 2)).1 :=
  inference_failure_error_response_context_running envA [("m", ctxM)]
    (runM [1] 2) ctxM (by decide) (by decide)

/-! ## Claim C10 -/

/-- C10: LOAD failure is atomic. When no context is stored for the id and
the LOAD fails — the model bytes do not resolve from storage, or tensor
allocation fails — the handler reports failure and the model table is
exactly as before: no context (in particular no Error-state context) is
stored for the id, and repeating the LOAD runs the whole path again from
the same table. -/
theorem load_failure_atomic (env : Env) (t : ModelTable) (req : ModelRequest)
    (habs : tlookup t req.modelId = none)
    (hfail : env.findModel req.modelId = false ∨
      env.allocTensors req.modelId = false) :
    (handleModelLoad env t req).1 = t ∧
    (handleModelLoad env t req).2.success = false ∧
    tlookup (handleModelLoad env t req).1 req.modelId = none ∧
    handleModelLoad env (handleModelLoad env t req).1 req =
      handleModelLoad env t req := by
  have hres : (handleModelLoad env t req).1 = t ∧
      (handleModelLoad env t req).2.success = false := by
    rcases hfail with hfail | hfail
    · constructor <;> simp [handleModelLoad, habs, hfail]
    · by_cases hfm : env.findModel req.modelId = false
      · constructor <;> simp [handleModelLoad, habs, hfm]
      · constructor <;> simp [handleModelLoad, habs, hfm, hfail]
  refine ⟨hres.1, hres.2, ?_, ?_⟩
  · rw [hres.1]; exact habs
  · rw [hres.1]

/-- C10 witness: under envA the model "q" does not resolve from storage
(findModel "q" is false); a LOAD(q) on the empty table fails, the table
stays empty and no context is stored for "q". -/
theorem load_failure_atomic_witness :
    (handleModelLoad envA [] (loadQ 6)).1 = [] ∧
    (handleModelLoad envA [] (loadQ 6)).2.success = false ∧
    tlookup (handleModelLoad envA [] (loadQ 6)).1 "q" = none ∧
    handleModelLoad envA (handleModelLoad envA [] (loadQ 6)).1 (loadQ 6) =
      handleModelLoad envA [] (loadQ 6) :=
  load_failure_atomic envA [] (loadQ 6) (by decide) (Or.inl (by decide))

/-! ## Claim C5 -/

/-- C5: LOAD is idempotent. Starting from a table holding no context for the
id, with the model resolvable and tensor allocation succeeding, two
consecutive LOAD requests for the id both report success — the first stores
the READY context ("Model loaded successfully"), the second returns
immediately ("Model already loaded") — exactly one context is stored for
the id afterwards, and the second LOAD leaves the table exactly as the
first left it. -/
theorem load_idempotent (env : Env) (t : ModelTable) (r₀ : ModelResponse)
    (id : String) (k₁ k₂ : Nat)
    (h0 : tcountKey t id = 0)
    (hfm : env.findModel id = true) (ha : env.allocTensors id = true) :
    (modelTaskRun env t r₀
        [{ operation := .LOAD, modelId := id, inputData := [],
           requestId := k₁ },
         { operation := .LOAD, modelId := id, inputData := [],
           requestId := k₂ }]).2 =
      [{ success := true, message := "Model loaded successfully",
         outputData := [], outputLength := 0, requestId := k₁,
         state := .READY },
       { success := true, message := "Model already loaded", outputData := [],
         outputLength := 0, requestId := k₂, state := .READY }] ∧
    tcountKey (modelTaskRun env t r₀
        [{ operation := .LOAD, modelId := id, inputData := [],
           requestId := k₁ },
         { operation := .LOAD, modelId := id, inputData := [],
           requestId := k₂ }]).1 id = 1 ∧
    (modelTaskRun env t r₀
        [{ operation := .LOAD, modelId := id, inputData := [],
           requestId := k₁ },
         { operation := .LOAD, modelId := id, inputData := [],
           requestId := k₂ }]).1 =
      (handleModelLoad env t
        { operation := .LOAD, modelId := id, inputData := [],
          requestId := k₁ }).1 := by
  have habs := tlookup_none_of_tcount_zero t id h0
  have h1 : handleModelLoad env t
      { operation := .LOAD, modelId := id, inputData := [], requestId := k₁ } =
      (tset t id
        { state := .READY, tensorArenaSize := 32 * 1024,
          inputTensorBytes := env.inputBytes id,
          inputTensor := List.replicate (env.inputBytes id) 0 },
       { success := true, message := "Model loaded successfully",
         outputData := [], outputLength := 0, requestId := k₁,
         state := .READY }) := by
    simp [handleModelLoad, habs, hfm, ha]
  have h2 : handleModelLoad env
      (tset t id
        { state := .READY, tensorArenaSize := 32 * 1024,
          inputTensorBytes := env.inputBytes id,
          inputTensor := List.replicate (env.inputBytes id) 0 })
      { operation := .LOAD, modelId := id, inputData := [], requestId := k₂ } =
      (tset t id
        { state := .READY, tensorArenaSize := 32 * 1024,
          inputTensorBytes := env.inputBytes id,
          inputTensor := List.replicate (env.inputBytes id) 0 },
       { success := true, message := "Model already loaded", outputData := [],
         outputLength := 0, requestId := k₂, state := .READY }) := by
    simp [handleModelLoad, tlookup_tset_self]
  refine ⟨?_, ?_, ?_⟩
  · simp [modelTaskRun, modelStep, h1, h2]
  · simp only [modelTaskRun, modelStep, h1, h2]
    rw [tcountKey_tset_of_none t id _ habs, h0]
  · simp [modelTaskRun, modelStep, h1, h2]

/-- C5 witness: under envA, two consecutive LOAD(m) requests on the empty
table report ["Model loaded successfully", "Model already loaded"], both
successful, and leave exactly one context stored for "m". -/
theorem load_idempotent_witness :
    (modelTaskRun envA [] mresp₀ [loadM 1, loadM 2]).2 =
      [{ success := true, message := "Model loaded successfully",
         outputData := [], outputLength := 0, requestId := 1,
         state := .READY },
       { success := true, message := "Model already loaded", outputData := [],
         outputLength := 0, requestId := 2, state := .READY }] ∧
    tcountKey (modelTaskRun envA [] mresp₀ [loadM 1, loadM 2]).1 "m" = 1 ∧
    (modelTaskRun envA [] mresp₀ [loadM 1, loadM 2]).1 =
      (handleModelLoad envA [] (loadM 1)).1 :=
  load_idempotent envA [] mresp₀ "m" 1 2 (by decide) (by decide) (by decide)

/-! ## Helper lemmas: absence of a context is preserved by the worker -/

theorem tlookup_handleInference_none (env : Env) (t : ModelTable)
    (req : ModelRequest) (id : String) (h : tlookup t id = none) :
    tlookup (handleInference env t req).1 id = none := by
  cases hl : tlookup t req.modelId
  · simpa [handleInference, hl] using h
  · have hid : id ≠ req.modelId := by
      intro he; rw [← he, h] at hl; exact Option.noConfusion hl
    simp only [handleInference, hl]
    split
    · simpa [tlookup_tset_ne _ _ _ _ hid] using h
    · simpa [tlookup_tset_ne _ _ _ _ hid] using h

theorem tlookup_handleModelLoad_none (env : Env) (t : ModelTable)
    (req : ModelRequest) (id : String) (h : tlookup t id = none)
    (hno : req.modelId = id →
      env.findModel id = false ∨ env.allocTensors id = false) :
    tlookup (handleModelLoad env t req).1 id = none := by
  cases hl : tlookup t req.modelId
  · simp only [handleModelLoad, hl]
    split
    · exact h
    · split
      · exact h
      · rename_i hfm hal
        by_cases hid : req.modelId = id
        · rcases hno hid with h' | h'
          · rw [hid] at hfm; exact absurd h' hfm
          · rw [hid] at hal; exact absurd h' hal
        · simpa [tlookup_tset_ne _ _ _ _ (Ne.symm hid)] using h
  · simpa [handleModelLoad, hl] using h

theorem tlookup_modelStep_none (env : Env) (t : ModelTable)
    (r : ModelResponse) (req : ModelRequest) (id : String)
    (h : tlookup t id = none)
    (hno : req.operation = .LOAD → req.modelId = id →
      env.findModel id = false ∨ env.allocTensors id = false) :
    tlookup (modelStep env t r req).1 id = none := by
  cases hop : req.operation
  case LOAD =>
    simpa [modelStep, hop] using
      tlookup_handleModelLoad_none env t req id h (hno hop)
  case RUN =>
    simpa [modelStep, hop] using tlookup_handleInference_none env t req id h
  case UNLOAD =>
    simpa [modelStep, hop, handleModelUnload] using
      tlookup_tremove_of_none t id req.modelId h
  case STATUS => simpa [modelStep, hop] using h

theorem modelTaskRun_run_unloaded (env : Env) (id : String) :
    ∀ (reqs : List ModelRequest) (t : ModelTable) (r₀ : ModelResponse),
      tlookup t id = none →
      (∀ req ∈ reqs, req.operation = .LOAD → req.modelId = id →
        env.findModel id = false ∨ env.allocTensors id = false) →
      ∀ (i : Nat) (req : ModelRequest) (resp : ModelResponse),
        reqs[i]? = some req →
        (modelTaskRun env t r₀ reqs).2[i]? = some resp →
        req.operation = .RUN → req.modelId = id →
        resp = { success := false, message := "Model not loaded",
                 outputData := [], outputLength := 0,
                 requestId := req.requestId, state := .UNLOADED } := by
  intro reqs
  induction reqs with
  | nil => intro t r₀ _ _ i req resp h; simp at h
  | cons q rest ih =>
      intro t r₀ habs hno i req resp hq hr hrun hid
      cases i with
      | zero =>
          simp at hq
          simp [modelTaskRun] at hr
          subst hq
          rw [← hr]
          simp [modelStep, hrun, handleInference, hid, habs]
      | succ j =>
          simp at hq
          simp [modelTaskRun] at hr
          exact ih (modelStep env t r₀ q).1 (modelStep env t r₀ q).2
            (tlookup_modelStep_none env t r₀ q id habs
              (hno q (List.mem_cons_self q rest)))
            (fun r hm => hno r (List.mem_cons_of_mem q hm))
            j req resp hq hr hrun hid

/-! ## Claim C4 -/

/-- C4 counterexample: the claim says RUN(id) fails with "model not loaded"
whenever no Ready context exists for the id. On the trace LOAD(m),
RUN(m, [1]) (engine failure, stored context left RUNNING), RUN(m, [2]): at
the third request the stored context for "m" is in state RUNNING — no Ready
context exists — yet the request does not fail with "Model not loaded"; it
proceeds and reports "Inference successful", because the handler only
checks presence in the table, never the state. -/
theorem run_without_ready_context_counterexample :
    (tlookup (modelTaskRun envA [] mresp₀ [loadM 1, runM [1] 2]).1 "m").map
        (fun c => c.state) = some ModelState.RUNNING ∧
    (modelTaskRun envA [] mresp₀ [loadM 1, runM [1] 2, runM [2] 3]).2.map
        (fun r => (r.success, r.message)) =
      [(true, "Model loaded successfully"), (false, "Inference failed"),
       (true, "Inference successful")] := by
  decide

/-- C4 (amended): RUN(id) fails with "Model not loaded" exactly when no
context at all (of any state) is stored for the id: when the table has no
entry the handler returns the failed "Model not loaded" response and leaves
the table unchanged, and when any context is stored — Ready or not — the
response is never "Model not loaded". Consequently every RUN(id) issued
before any successful LOAD(id), starting from the empty table, fails with
"Model not loaded". -/
theorem run_fails_model_not_loaded_iff_absent :
    (∀ (env : Env) (t : ModelTable) (req : ModelRequest),
      (tlookup t req.modelId = none →
        handleInference env t req =
          (t, { success := false, message := "Model not loaded",
                outputData := [], outputLength := 0,
                requestId := req.requestId, state := .UNLOADED })) ∧
      (∀ ctx : ModelContext, tlookup t req.modelId = some ctx →
        (handleInference env t req).2.message ≠ "Model not loaded")) ∧
    (∀ (env : Env) (id : String) (reqs : List ModelRequest)
       (r₀ : ModelResponse),
      (∀ req ∈ reqs, req.operation = .LOAD → req.modelId = id →
        env.findModel id = false ∨ env.allocTensors id = false) →
      ∀ (i : Nat) (req : ModelRequest) (resp : ModelResponse),
        reqs[i]? = some req →
        (modelTaskRun env [] r₀ reqs).2[i]? = some resp →
        req.operation = .RUN → req.modelId = id →
        resp = { success := false, message := "Model not loaded",
                 outputData := [], outputLength := 0,
                 requestId := req.requestId, state := .UNLOADED }) := by
  constructor
  · intro env t req
    constructor
    · intro habs
      simp [handleInference, habs]
    · intro ctx hl
      simp only [handleInference, hl]
      split <;> simp
  · intro env id reqs r₀ hno
    exact modelTaskRun_run_unloaded env id reqs [] r₀ rfl hno

/-- C4 witness: a RUN for the never-loaded model "z" on the empty table
fails with "Model not loaded" carrying the request's correlation id, both
directly through the handler and as the first response of a worker trace
that contains no LOAD of "z". -/
theorem run_fails_model_not_loaded_iff_absent_witness :
    handleInference envA [] (runZ 3) =
      ([], { success := false, message := "Model not loaded",
             outputData := [], outputLength := 0, requestId := 3,
             state := .UNLOADED }) ∧
    (modelStep envA [] mresp₀ (runZ 3)).2 =
      { success := false, message := "Model not loaded", outputData := [],
        outputLength := 0, requestId := 3, state := .UNLOADED } :=
  ⟨(run_fails_model_not_loaded_iff_absent.1 envA [] (runZ 3)).1 (by decide),
   run_fails_model_not_loaded_iff_absent.2 envA "z" [runZ 3] mresp₀
     (by decide) 0 (runZ 3) (modelStep envA [] mresp₀ (runZ 3)).2
     (by decide) rfl (by decide) rfl⟩

/-! ## Helper lemmas: Peer Directory -/

theorem insertInactive_length (peers : List SwarmPeer) (b : BeaconPacket) :
    (insertInactive peers b).length = peers.length := by
  induction peers with
  | nil => rfl
  | cons p rest ih =>
      by_cases h : p.is_active = false
      · simp [insertInactive, h]
      · simp [insertInactive, h, ih]

theorem updateMatch_length (b : BeaconPacket) :
    ∀ (peers peers' : List SwarmPeer), updateMatch peers b = some peers' →
      peers'.length = peers.length := by
  intro peers
  induction peers with
  | nil => intro p' h; simp [updateMatch] at h
  | cons p rest ih =>
      intro p' h
      by_cases hm : p.mac_address = b.sender_id
      · rw [updateMatch, if_pos hm] at h
        cases h
        simp
      · rw [updateMatch, if_neg hm] at h
        cases hu : updateMatch rest b with
        | none => rw [hu] at h; cases h
        | some rest' =>
            rw [hu] at h
            cases h
            simpa using ih rest' hu

theorem processBeacon_length (peers : List SwarmPeer) (b : BeaconPacket) :
    (processBeacon peers b).length = peers.length := by
  cases hu : updateMatch peers b with
  | none => simp [processBeacon, hu, insertInactive_length]
  | some peers' => simpa [processBeacon, hu] using updateMatch_length b peers peers' hu

theorem foldl_processBeacon_length (bs : List BeaconPacket) :
    ∀ peers : List SwarmPeer,
      (bs.foldl processBeacon peers).length = peers.length := by
  induction bs with
  | nil => intro peers; rfl
  | cons b rest ih =>
      intro peers
      rw [List.foldl_cons, ih (processBeacon peers b), processBeacon_length]

theorem updateMatch_of_no_match (peers : List SwarmPeer) (b : BeaconPacket)
    (h : ∀ p ∈ peers, p.mac_address ≠ b.sender_id) :
    updateMatch peers b = none := by
  induction peers with
  | nil => rfl
  | cons p rest ih =>
      rw [updateMatch, if_neg (h p (List.mem_cons_self p rest)),
        ih (fun q hq => h q (List.mem_cons_of_mem p hq))]

theorem insertInactive_of_all_active (peers : List SwarmPeer)
    (b : BeaconPacket) (h : ∀ p ∈ peers, p.is_active = true) :
    insertInactive peers b = peers := by
  induction peers with
  | nil => rfl
  | cons p rest ih =>
      have h1 : ¬p.is_active = false := by
        simp [h p (List.mem_cons_self p rest)]
      rw [insertInactive, if_neg h1,
        ih (fun q hq => h q (List.mem_cons_of_mem p hq))]

theorem updateMatch_first_match (b : BeaconPacket) :
    ∀ (peers : List SwarmPeer) (i : Nat) (hi : i < peers.length),
      (peers.get ⟨i, hi⟩).mac_address = b.sender_id →
      (∀ (j : Nat) (hj : j < i),
        (peers.get ⟨j, by omega⟩).mac_address ≠ b.sender_id) →
      updateMatch peers b = some (peers.set i
        { peers.get ⟨i, hi⟩ with
            last_seen := b.timestamp, capabilities := b.capabilities,
            is_active := true }) := by
  intro peers
  induction peers with
  | nil => intro i hi; simp at hi
  | cons p rest ih =>
      intro i hi hm hfirst
      cases i with
      | zero =>
          simp only [List.get] at hm
          simp [updateMatch, hm]
      | succ j =>
          have hp : p.mac_address ≠ b.sender_id := by
            simpa using hfirst 0 (Nat.succ_pos j)
          rw [updateMatch, if_neg hp,
            ih j (by simpa using hi) (by simpa using hm)
              (fun k hk => by simpa using hfirst (k + 1) (by omega))]
          simp

theorem map_rssi_set_of_same (p : SwarmPeer) :
    ∀ (l : List SwarmPeer) (i : Nat) (hi : i < l.length),
      p.rssi = (l.get ⟨i, hi⟩).rssi →
      (l.set i p).map (fun q => q.rssi) = l.map (fun q => q.rssi) := by
  intro l
  induction l with
  | nil => intro i hi; simp at hi
  | cons q rest ih =>
      intro i hi hp
      cases i with
      | zero =>
          simp only [List.get] at hp
          simp [hp]
      | succ j =>
          have := ih j (by simpa using hi) (by simpa using hp)
          simpa using this

theorem activeCount_set_of_same (p : SwarmPeer) :
    ∀ (l : List SwarmPeer) (i : Nat) (hi : i < l.length),
      p.is_active = (l.get ⟨i, hi⟩).is_active →
      activeCount (l.set i p) = activeCount l := by
  intro l
  induction l with
  | nil => intro i hi; simp at hi
  | cons q rest ih =>
      intro i hi hp
      cases i with
      | zero =>
          simp only [List.get] at hp
          by_cases hb : q.is_active = true
          · simp [activeCount, List.filter_cons, hb, hp ▸ hb]
          · have hb' : q.is_active = false := by
              cases hq : q.is_active
              · rfl
              · exact absurd hq hb
            simp [activeCount, List.filter_cons, hb', hp ▸ hb']
      | succ j =>
          have := ih j (by simpa using hi) (by simpa using hp)
          by_cases hb : q.is_active = true
          · simpa [activeCount, List.filter_cons, hb] using this
          · simpa [activeCount, List.filter_cons, hb] using this

/-! ## Claim C7 -/

/-- C7: Peer Directory capacity. The slot array's size is invariant under
any sequence of received beacons (it is a fixed array of MAX_PEERS = 20
slots); in particular from MAX_PEERS slots it stays at MAX_PEERS; and when
every slot is active and the beacon's sender identity matches no slot, the
beacon is dropped: the directory is exactly unchanged. -/
theorem peer_directory_capacity (peers : List SwarmPeer)
    (bs : List BeaconPacket) (b : BeaconPacket) :
    (bs.foldl processBeacon peers).length = peers.length ∧
    (peers.length = MAX_PEERS → (processBeacon peers b).length = MAX_PEERS) ∧
    ((∀ p ∈ peers, p.is_active = true) →
      (∀ p ∈ peers, p.mac_address ≠ b.sender_id) →
      processBeacon peers b = peers) := by
  refine ⟨foldl_processBeacon_length bs peers, ?_, ?_⟩
  · intro h
    rw [processBeacon_length, h]
  · intro hact hmac
    rw [processBeacon, updateMatch_of_no_match peers b hmac,
      insertInactive_of_all_active peers b hact]

/-- C7 witness: a directory of 20 active slots holding peerA's identity
keeps length 20 under a beacon, and a beacon from the brand-new identity
08:08:08:08:08:08 is dropped leaving the 20 slots exactly unchanged. -/
theorem peer_directory_capacity_witness :
    ([beaconA].foldl processBeacon (List.replicate 20 peerA)).length = 20 ∧
    (processBeacon (List.replicate 20 peerA) beaconB).length = 20 ∧
    processBeacon (List.replicate 20 peerA) beaconB =
      List.replicate 20 peerA :=
  ⟨(peer_directory_capacity (List.replicate 20 peerA) [beaconA] beaconB).1,
   (peer_directory_capacity (List.replicate 20 peerA) [beaconA] beaconB).2.1
     (by decide),
   (peer_directory_capacity (List.replicate 20 peerA) [beaconA] beaconB).2.2
     (by decide) (by decide)⟩

/-! ## Claim C8 -/

/-- C8 counterexample: the claim says the matched slot's signal strength is
updated. processBeacon receives only the BeaconPacket — the receive path
discards the radio's signal measurement — and writes last_seen,
capabilities and is_active but never rssi: on a directory holding the
matching slot with rssi 7, the slot after the beacon still has rssi 7 (its
prior value) while last_seen and capabilities did change. -/
theorem beacon_upsert_rssi_not_updated_counterexample :
    processBeacon [peerA] beaconA =
      [{ mac_address := [1, 2, 3, 4, 5, 6], rssi := 7, last_seen := 55,
         is_active := true, capabilities := List.replicate 128 9 }] ∧
    peerA.rssi = 7 ∧ peerA.last_seen = 0 := by
  decide

/-- C8 (amended): for a beacon whose sender identity first matches the
active slot at index i, exactly that slot is updated in place — its
last-seen timestamp and capability vector are overwritten and it is marked
active, while its signal-strength field is left untouched (every slot's
rssi is unchanged: the upsert receives no signal measurement) — and the
directory's count of active entries does not increase. -/
theorem beacon_upsert_updates_single_slot (peers : List SwarmPeer)
    (b : BeaconPacket) (i : Nat) (hi : i < peers.length)
    (hm : (peers.get ⟨i, hi⟩).mac_address = b.sender_id)
    (hfirst : ∀ (j : Nat) (hj : j < i),
      (peers.get ⟨j, by omega⟩).mac_address ≠ b.sender_id)
    (hact : (peers.get ⟨i, hi⟩).is_active = true) :
    processBeacon peers b = peers.set i
      { peers.get ⟨i, hi⟩ with
          last_seen := b.timestamp, capabilities := b.capabilities,
          is_active := true } ∧
    (processBeacon peers b).map (fun p => p.rssi) =
      peers.map (fun p => p.rssi) ∧
    activeCount (processBeacon peers b) = activeCount peers ∧
    (processBeacon peers b).length = peers.length := by
  have hp : processBeacon peers b = peers.set i
      { peers.get ⟨i, hi⟩ with
          last_seen := b.timestamp, capabilities := b.capabilities,
          is_active := true } := by
    rw [processBeacon, updateMatch_first_match b peers i hi hm hfirst]
  refine ⟨hp, ?_, ?_, processBeacon_length peers b⟩
  · rw [hp]
    exact map_rssi_set_of_same _ peers i hi (by simp)
  · rw [hp]
    exact activeCount_set_of_same _ peers i hi (by simpa using hact.symm)

/-- C8 witness: a directory [peerB, peerA] receiving a beacon from peerA's
identity updates exactly the second slot (timestamp 55, fresh
capabilities, still active), leaves every slot's rssi unchanged, and the
active-entry count and directory length are unchanged. -/
theorem beacon_upsert_updates_single_slot_witness :
    processBeacon [peerB, peerA] beaconA =
      [peerB,
       { mac_address := [1, 2, 3, 4, 5, 6], rssi := 7, last_seen := 55,
         is_active := true, capabilities := List.replicate 128 9 }] ∧
    (processBeacon [peerB, peerA] beaconA).map (fun p => p.rssi) =
      [peerB, peerA].map (fun p => p.rssi) ∧
    activeCount (processBeacon [peerB, peerA] beaconA) =
      activeCount [peerB, peerA] ∧
    (processBeacon [peerB, peerA] beaconA).length =
      [peerB, peerA].length :=
  beacon_upsert_updates_single_slot [peerB, peerA] beaconA 1 (by decide)
    (by decide) (by decide) (by decide)

end Swarm
